import Mathlib

/-!
Verification of the nl2sql-agent repository (my_agent/sql_helper.py,
my_agent/agent.py, my_agent/tools.py) against its natural-language
specification.  Python strings are modelled as `List Char`; Python's
truthiness of a string is emptiness; dictionaries that are only iterated
in insertion order are modelled as lists.
-/

namespace NL2SQL

/-- The six ASCII whitespace characters stripped by Python's `str.strip()`. -/
def pyIsSpace (c : Char) : Bool :=
  c = ' ' || c = '\t' || c = '\n' || c = '\r' || c = '\x0b' || c = '\x0c'

/-- Python `str.strip()`: drop whitespace from both ends. -/
def pyStrip (s : List Char) : List Char :=
  ((s.dropWhile pyIsSpace).reverse.dropWhile pyIsSpace).reverse

/-- ASCII uppercasing of one character, as Python `str.upper()` acts on ASCII. -/
def asciiUpper (c : Char) : Char :=
  if 97 ≤ c.toNat ∧ c.toNat ≤ 122 then Char.ofNat (c.toNat - 32) else c

/-- ASCII lowercasing of one character, as Python `str.lower()` acts on ASCII. -/
def asciiLower (c : Char) : Char :=
  if 65 ≤ c.toNat ∧ c.toNat ≤ 90 then Char.ofNat (c.toNat + 32) else c

/-- Python `str.upper()` (ASCII fragment). -/
def pyUpper (s : List Char) : List Char := s.map asciiUpper

/-- Python `str.lower()` (ASCII fragment). -/
def pyLower (s : List Char) : List Char := s.map asciiLower

/-- Python `str.startswith`: `isPrefixL pat s` iff `pat` is a prefix of `s`. -/
def isPrefixL : List Char → List Char → Bool
  | [], _ => true
  | _ :: _, [] => false
  | a :: as, b :: bs => a = b && isPrefixL as bs

/-- Python's substring test `pat in s` (contiguous substring). -/
def isSub (pat : List Char) : List Char → Bool
  | [] => isPrefixL pat []
  | b :: bs => isPrefixL pat (b :: bs) || isSub pat bs

/-! ## sql_helper.py — RedshiftSQLHelper.validate_sql_syntax (lines 192-228) -/

/-- The `required_tables` list of `validate_sql_syntax` (sql_helper.py line 208). -/
def requiredTables : List (List Char) :=
  ["products".data, "sales".data, "customers".data]

/-- Error message of the for/else branch of the table check (line 218). -/
def mustRefMsg : List Char :=
  "Query must reference at least one of the available tables".data

/-- The `for table in required_tables` loop of `validate_sql_syntax`
(lines 211-216): returns `true` iff the loop hits `break` (a table counted as
properly referenced), `false` iff the loop falls through to its `else` clause.
The f-strings `f"FROM {table}"`/`f"JOIN {table}"` interpolate the lowercase
table name, exactly as in the source. -/
def tableCheck (sqlU : List Char) : List (List Char) → Bool
  | [] => false
  | t :: rest =>
    if isSub (pyUpper t) sqlU then
      if !(isSub ("FROM ".data ++ t) sqlU) && !(isSub ("JOIN ".data ++ t) sqlU) then
        tableCheck sqlU rest
      else true
    else tableCheck sqlU rest

/-- sql_helper.py `validate_sql_syntax` (lines 192-228): strip, reject empty,
reject non-SELECT, table-reference check, parenthesis balance, schema
qualification. -/
def validate_sql_syntax (sql0 : List Char) : Bool × List Char :=
  let sql := pyStrip sql0
  if sql.isEmpty then (false, "Empty SQL query".data)
  else if !(isPrefixL "SELECT".data (pyUpper sql)) then
    (false, "Query must start with SELECT".data)
  else if !(tableCheck (pyUpper sql) requiredTables) then (false, mustRefMsg)
  else if sql.count '(' ≠ sql.count ')' then (false, "Mismatched parentheses".data)
  else if !(isSub "public.".data (pyLower sql)) && !(isSub "demo_db.".data (pyLower sql)) then
    (false, "Tables should be fully qualified (e.g., public.table_name)".data)
  else (true, [])

/-! ## sql_helper.py — RedshiftSQLHelper._get_relevant_sample_sql (lines 163-190) -/

/-- One entry of the sample-query library (tools.py `get_sample_queries`,
lines 267-408): a question/SQL/explanation triple.  The library dictionary is
iterated in insertion order, so it is modelled as a list of its values. -/
structure SampleQuery where
  question : List Char
  sql : List Char
  explanation : List Char
deriving DecidableEq

/-- The keyword if/elif chain applied to one sample (sql_helper.py lines
172-180): the question's bucket is chosen by the first matching keyword group,
then the sample is kept iff its own (lowercased) question text contains that
bucket's token.  `qLower`/`sLower` are the already-lowercased question and
stored sample question. -/
def bucketMatch (qLower sLower : List Char) : Bool :=
  if isSub "apparel".data qLower || isSub "clothes".data qLower ||
      isSub "fashion".data qLower then
    isSub "apparel".data sLower
  else if isSub "electronics".data qLower || isSub "electronic".data qLower then
    isSub "electronics".data sLower
  else if isSub "brand".data qLower || isSub "brands".data qLower then
    isSub "brand".data sLower
  else false

/-- Whether any keyword of any bucket of the if/elif chain occurs in the
lowercased question (i.e. some bucket fires, regardless of the samples). -/
def bucketFires (qLower : List Char) : Bool :=
  isSub "apparel".data qLower || isSub "clothes".data qLower ||
  isSub "fashion".data qLower || isSub "electronics".data qLower ||
  isSub "electronic".data qLower || isSub "brand".data qLower ||
  isSub "brands".data qLower

/-- The `relevant_samples` list collected by the loop of
`_get_relevant_sample_sql` (lines 170-180), in library order. -/
def selectedSamples (q : List Char) (lib : List SampleQuery) : List SampleQuery :=
  lib.filter (fun s => bucketMatch (pyLower q) (pyLower s.question))

/-- Lines 182-184: if nothing was collected, fall back to the first two
samples of the library (`list(self.sample_queries.values())[:2]`). -/
def relevantSamples (q : List Char) (lib : List SampleQuery) : List SampleQuery :=
  let sel := selectedSamples q lib
  if sel.isEmpty then lib.take 2 else sel

/-- Python `sep.join(parts)`. -/
def joinSep {α : Type} (sep : List α) : List (List α) → List α
  | [] => []
  | [x] => x
  | x :: y :: tl => x ++ sep ++ joinSep sep (y :: tl)

/-- Formatting of one selected sample (sql_helper.py line 188). -/
def formatSample (s : SampleQuery) : List Char :=
  "Question: ".data ++ s.question ++ "\nSQL: ".data ++ s.sql ++
    "\nExplanation: ".data ++ s.explanation

/-- sql_helper.py `_get_relevant_sample_sql` (lines 163-190): select samples,
format each, join with blank lines. -/
def getRelevantSampleSql (q : List Char) (lib : List SampleQuery) : List Char :=
  joinSep "\n\n".data ((relevantSamples q lib).map formatSample)

/-! ## sql_helper.py — RedshiftSQLHelper._format_schema_description (131-152) -/

/-- One column record of the schema catalog (tools.py `create_schema_tool`).
`col.get("primary_key")` / `col.get("foreign_key")` / `col.get("description")`
are truthiness tests in the source; an absent or falsy value is modelled as
`false` resp. the empty list. -/
structure SchemaColumn where
  name : List Char
  type : List Char
  primary_key : Bool
  foreign_key : List Char
  description : List Char
deriving DecidableEq

/-- One table record of the schema catalog: name, description, columns in
declaration order, and the (optional) `business_rules` list carried by the
data but not read by `_format_schema_description`. -/
structure SchemaTable where
  name : List Char
  description : List Char
  columns : List SchemaColumn
  business_rules : List (List Char)
deriving DecidableEq

/-- The key-marker suffix of a column line (sql_helper.py lines 139-142):
`[PRIMARY KEY]` wins over `[FOREIGN KEY -> ...]` (if/elif). -/
def colKeyMarker (c : SchemaColumn) : List Char :=
  if c.primary_key then " [PRIMARY KEY]".data
  else if !c.foreign_key.isEmpty then
    " [FOREIGN KEY -> ".data ++ c.foreign_key ++ "]".data
  else []

/-- The description suffix of a column line (lines 143-144). -/
def colDescSuffix (c : SchemaColumn) : List Char :=
  if !c.description.isEmpty then " - ".data ++ c.description else []

/-- One column description line body, `f"{col['name']} ({col['type']})"` plus
the optional suffixes (lines 138-144). -/
def colLine (c : SchemaColumn) : List Char :=
  c.name ++ " (".data ++ c.type ++ ")".data ++ colKeyMarker c ++ colDescSuffix c

/-- One table block (lines 147-149): header lines plus the `"\n"`-join of the
indented column lines. -/
def tableBlock (t : SchemaTable) : List Char :=
  "Table: ".data ++ t.name ++ "\nDescription: ".data ++ t.description ++
    "\nColumns:\n".data ++
    joinSep "\n".data (t.columns.map (fun c => "  - ".data ++ colLine c))

/-- sql_helper.py `_format_schema_description` (lines 131-152): the table
blocks joined by blank lines, tables in catalog order. -/
def formatSchemaDescription (ts : List SchemaTable) : List Char :=
  joinSep "\n\n".data (ts.map tableBlock)

/-! ## agent.py — NL2SQLRedshiftAgent._check_business_rule_compliance (258-278) -/

/-- The record returned by `_check_business_rule_compliance`. -/
structure ComplianceResult where
  compliant : Bool
  violations : List (List Char)
  checked_rules : List (List Char)
deriving DecidableEq

/-- Violation message of the Revolve site-filter rule (agent.py line 268). -/
def revolveViolationMsg : List Char :=
  "Missing Revolve filter: should use site <> 'F'".data

/-- Violation message of the lost-package rule (agent.py line 272). -/
def lostViolationMsg : List Char :=
  "Should use 'lost package' not 'lost' for package status".data

/-- agent.py `_check_business_rule_compliance` (lines 258-278): lowercase both
texts, append a violation per rule whose trigger fires, report compliant iff
no violation was appended. -/
def check_business_rule_compliance (question response : List Char) :
    ComplianceResult :=
  let ql := pyLower question
  let rl := pyLower response
  let v1 : List (List Char) :=
    if isSub "revolve".data ql && isSub "site".data rl then
      if !(isSub "site <> 'f'".data rl) && !(isSub "site != 'f'".data rl) then
        [revolveViolationMsg]
      else []
    else []
  let v2 : List (List Char) :=
    if isSub "lost".data ql || isSub "package".data ql then
      if isSub "'lost'".data rl && !(isSub "'lost package'".data rl) then
        [lostViolationMsg]
      else []
    else []
  { compliant := (v1 ++ v2).length == 0
    violations := v1 ++ v2
    checked_rules := ["revolve_filter".data, "lost_package_status".data] }

/-! ## agent.py — NL2SQLRedshiftAgent.process_question (170-228) and helpers -/

/-- agent.py `_pre_validate_question` (lines 230-256): advisory suggestions
only; the `valid` field is always true, so only the suggestion list is
modelled.  (The `warnings` list is never appended to in the source.) -/
def pre_validate_suggestions (question : List Char) : List (List Char) :=
  let ql := pyLower question
  let s1 : List (List Char) :=
    if isSub "revolve".data ql || isSub "forward".data ql then
      if isSub "revolve".data ql && !(isSub "site".data ql) then
        ["Consider specifying site <> 'F' to exclude Forward orders".data]
      else []
    else []
  let s2 : List (List Char) :=
    if isSub "product".data ql || isSub "brand".data ql ||
        isSub "category".data ql then
      if !(isSub "shipment".data ql) then
        ["Product analysis requires shipmentnumber_rs table for accurate results".data]
      else []
    else []
  let s3 : List (List Char) :=
    if isSub "payment".data ql || isSub "applepay".data ql ||
        isSub "token".data ql then
      ["Payment token analysis requires joining with mars__revolveclothing_com___db.orders".data]
    else []
  s1 ++ s2 ++ s3

/-- agent.py `_get_error_suggestions` (lines 280-302): keyword classification
of the lowercased error message into canned suggestion lists. -/
def get_error_suggestions (errorMsg : List Char) : List (List Char) :=
  let el := pyLower errorMsg
  let s1 : List (List Char) :=
    if isSub "authentication".data el || isSub "permission".data el then
      ["Check service account credentials and IAM roles".data,
       "Verify GOOGLE_APPLICATION_CREDENTIALS environment variable".data]
    else []
  let s2 : List (List Char) :=
    if isSub "connection".data el || isSub "network".data el then
      ["Verify Integration Connector is active and accessible".data,
       "Check VPC and firewall settings for Redshift connection".data]
    else []
  let s3 : List (List Char) :=
    if isSub "table".data el || isSub "column".data el then
      ["Verify table names are fully qualified (schema.table)".data,
       "Check if the required tables exist in Redshift".data]
    else []
  let sug := s1 ++ s2 ++ s3
  if sug.isEmpty then
    ["Check agent logs for more detailed error information".data,
     "Validate configuration in agent_config.json".data]
  else sug

/-- Outcome of one call into the external agent runtime (`self.agent.run`):
either a response text or a raised exception's message. -/
inductive RunOutcome where
  | ok (resp : List Char)
  | exn (msg : List Char)

/-- The dictionary returned by `process_question`, plus an `invokedRuntime`
flag mirroring whether control reached the `self.agent.run(user_question)`
call (agent.py line 200). -/
structure QuestionOutcome where
  success : Bool
  error : Option (List Char)
  agent_response : Option (List Char)
  compliance : Option ComplianceResult
  validation_suggestions : List (List Char)
  error_suggestions : List (List Char)
  invokedRuntime : Bool

/-- agent.py `process_question` (lines 170-228): blank questions are rejected
before anything else runs; otherwise pre-validation, the runtime call, and the
compliance check happen inside the try block, and a raised exception is turned
into a failure record with classified suggestions. -/
def process_question (run : List Char → RunOutcome) (q : List Char) :
    QuestionOutcome :=
  if q.isEmpty || (pyStrip q).isEmpty then
    { success := false
      error := some "Question cannot be empty".data
      agent_response := none
      compliance := none
      validation_suggestions := []
      error_suggestions := []
      invokedRuntime := false }
  else
    match run q with
    | .ok resp =>
      { success := true
        error := none
        agent_response := some resp
        compliance := some (check_business_rule_compliance q resp)
        validation_suggestions := pre_validate_suggestions q
        error_suggestions := []
        invokedRuntime := true }
    | .exn m =>
      { success := false
        error := some m
        agent_response := none
        compliance := none
        validation_suggestions := []
        error_suggestions := get_error_suggestions m
        invokedRuntime := true }

/-! ## agent.py — NL2SQLRedshiftAgent.__init__ (lines 21-61) and its callees.

The external collaborators (`ApplicationIntegrationToolset`, `Agent`, the
service-account file load) are opaque to this code and are modelled as oracle
parameters giving their outcome; everything else below is the repository's own
control flow. -/

/-- A raised Python exception, by class and message. -/
inductive PyErr where
  | valueError (msg : List Char)
  | runtimeError (msg : List Char)
  | attributeError (msg : List Char)
deriving DecidableEq

/-- Python `str(e)` of an exception: its message. -/
def PyErr.msg : PyErr → List Char
  | .valueError m => m
  | .runtimeError m => m
  | .attributeError m => m

/-- The names of the methods the class body of `RedshiftSQLHelper`
(sql_helper.py lines 11-259) defines, in order.  Attribute lookup on a helper
instance succeeds exactly for these names (the class has no base other than
`object` and no dynamic attribute assignment besides `__init__`'s data
fields). -/
def helperMethodNames : List (List Char) :=
  ["__init__".data, "get_buildsql_prompt".data, "get_validation_prompt".data,
   "generate_response_prompt".data, "_format_schema_description".data,
   "_format_relationships".data, "_get_relevant_sample_sql".data,
   "validate_sql_syntax".data, "extract_table_names".data,
   "get_demo_questions".data]

/-- Whether `self.sql_helper.<name>` resolves on a `RedshiftSQLHelper`. -/
def helperHasMethod (n : List Char) : Bool := helperMethodNames.contains n

/-- The message of the `AttributeError` raised by
`self.sql_helper._get_business_rules()` (agent.py line 108). -/
def missingBusinessRulesMsg : List Char :=
  "'RedshiftSQLHelper' object has no attribute '_get_business_rules'".data

/-- The attribute lookup + call `self.sql_helper._get_business_rules()`
(agent.py line 108).  sql_helper.py defines no method of that name (see
`helperMethodNames`), so the lookup raises `AttributeError`; the `ok` branch
can never be taken and its value (the rules text the absent method would
return) is represented by the empty string. -/
def helperGetBusinessRules : Except PyErr (List Char) :=
  if helperHasMethod "_get_business_rules".data then Except.ok []
  else Except.error (.attributeError missingBusinessRulesMsg)

/-- agent.py `_get_agent_instructions` (lines 100-168): formats schema and
relationship text (pure, cannot fail), then calls
`self.sql_helper._get_business_rules()` and splices the result into the
instruction template.  Because that call raises, the template after it is
unreachable; the `ok` branch keeps only the template's opening line followed
by the rules placeholder. -/
def get_agent_instructions : Except PyErr (List Char) := do
  let rules ← helperGetBusinessRules
  Except.ok
    ("\nYou are an expert SQL analyst specializing in Revolve's e-commerce data analysis on AWS Redshift.\n".data
      ++ rules)

/-- tools.py `create_redshift_tool` (lines 10-131): validates project and
connection, loads the service-account file (modelled by the `saLoad` oracle:
`ok` for a successful load or any of the credential fallback paths, `error`
for a raised `ValueError`/`FileNotFoundError`), then constructs the toolset
(the `toolset` oracle), wrapping a constructor exception in `RuntimeError`. -/
def create_redshift_tool (project_id connection : List Char)
    (saLoad toolset : Except PyErr Unit) : Except PyErr Unit :=
  if project_id.isEmpty then
    Except.error (.valueError "project_id is required".data)
  else if connection.isEmpty then
    Except.error (.valueError "connection name is required".data)
  else
    match saLoad with
    | .error e => .error e
    | .ok _ =>
      match toolset with
      | .ok _ => .ok ()
      | .error e =>
        .error (.runtimeError
          ("Failed to create ApplicationIntegrationToolset: ".data ++ e.msg))

/-- agent.py `_create_tools` (lines 63-81): call `create_redshift_tool`, wrap
any exception in `RuntimeError("Could not create Redshift tools: ...")`.  (The
`if not redshift_tool` guard cannot fire: a constructed toolset object is
truthy.) -/
def create_tools (project_id connection : List Char)
    (saLoad toolset : Except PyErr Unit) : Except PyErr Unit :=
  match create_redshift_tool project_id connection saLoad toolset with
  | .ok _ => .ok ()
  | .error e =>
    .error (.runtimeError ("Could not create Redshift tools: ".data ++ e.msg))

/-- agent.py `_create_agent` (lines 83-98): evaluate
`self._get_agent_instructions()` and the `Agent(...)` constructor (the
`agentCtor` oracle) inside a try block; wrap any exception in
`RuntimeError("Could not create ADK agent: ...")`. -/
def create_agent (agentCtor : Except PyErr Unit) : Except PyErr Unit :=
  match (do let _ ← get_agent_instructions; agentCtor : Except PyErr Unit) with
  | .ok _ => .ok ()
  | .error e =>
    .error (.runtimeError ("Could not create ADK agent: ".data ++ e.msg))

/-- The facade state after a successful construction (spec §4.4 "Ready"). -/
inductive FacadeState where
  | ready
deriving DecidableEq

/-- agent.py `NL2SQLRedshiftAgent.__init__` (lines 21-61): validate
`project_id`, then build the SQL helper (pure, cannot fail), the tools and
the ADK agent, re-raising any exception. -/
def agent_construct (project_id connection : List Char)
    (saLoad toolset agentCtor : Except PyErr Unit) : Except PyErr FacadeState :=
  if project_id.isEmpty then
    Except.error (.valueError "project_id is required and cannot be empty".data)
  else
    match create_tools project_id connection saLoad toolset with
    | .error e => .error e
    | .ok _ =>
      match create_agent agentCtor with
      | .error e => .error e
      | .ok _ => .ok .ready

/-! ## Spec-side definitions (refinement statements) and concrete data -/

/-- Spec-side acceptance condition of the table-reference check
(spec §4.3): some required table identifier appears directly preceded by
`FROM ` or `JOIN ` in the upper-cased (stripped) SQL text. -/
def specTableRefCond (sql : List Char) : Prop :=
  ∃ t ∈ requiredTables,
    isSub ("FROM ".data ++ pyUpper t) (pyUpper (pyStrip sql)) = true ∨
    isSub ("JOIN ".data ++ pyUpper t) (pyUpper (pyStrip sql)) = true

/-- Spec-side line structure of one table block of the schema description:
a `Table:` line, a `Description:` line, a `Columns:` line, then exactly one
indented line per declared column, in declaration order. -/
def specTableLines (t : SchemaTable) : List (List Char) :=
  ("Table: ".data ++ t.name) :: ("Description: ".data ++ t.description) ::
    "Columns:".data :: t.columns.map (fun c => "  - ".data ++ colLine c)

/-- Split a text on newline characters (inverse view of a `"\n"`-join). -/
def splitNl : List Char → List (List Char)
  | [] => [[]]
  | c :: tl =>
    if c = '\n' then [] :: splitNl tl
    else
      match splitNl tl with
      | [] => [[c]]
      | r :: rs => (c :: r) :: rs

/-- All text fields of a table (and of its columns) are newline-free. -/
def tableNlFree (t : SchemaTable) : Prop :=
  '\n' ∉ t.name ∧ '\n' ∉ t.description ∧
    ∀ c ∈ t.columns, '\n' ∉ c.name ∧ '\n' ∉ c.type ∧
      '\n' ∉ c.foreign_key ∧ '\n' ∉ c.description

instance (t : SchemaTable) : Decidable (tableNlFree t) := by
  unfold tableNlFree; infer_instance

/-- The question of claim C3. -/
def aovQuestion : List Char := "What is the AOV for UK customers?".data

/-- A sample whose stored question text contains "AOV", placed third in
`aovCexLib` so that the first-two fallback cannot return it. -/
def aovCexSample3 : SampleQuery :=
  { question := "What was the AOV last month".data
    sql := "SELECT 3".data
    explanation := "three".data }

/-- First sample of the counterexample library (no bucket token). -/
def aovCexSample1 : SampleQuery :=
  { question := "first sample question".data
    sql := "SELECT 1".data
    explanation := "one".data }

/-- Second sample of the counterexample library (no bucket token). -/
def aovCexSample2 : SampleQuery :=
  { question := "second sample question".data
    sql := "SELECT 2".data
    explanation := "two".data }

/-- Counterexample sample library for claim C3: the AOV sample is third. -/
def aovCexLib : List SampleQuery := [aovCexSample1, aovCexSample2, aovCexSample3]

/-- A one-sample library whose sample question holds no bucket token. -/
def electronicsOnlyLib : List SampleQuery :=
  [{ question := "electronics sales by region".data
     sql := "SELECT e".data
     explanation := "elec".data }]

/-- A table carrying a business-rule annotation, used to show that
`_format_schema_description` never emits business rules. -/
def rulesDemoTable : SchemaTable :=
  { name := "demo.t".data
    description := "a table".data
    columns := [{ name := "id".data, type := "INTEGER".data,
                  primary_key := true, foreign_key := [],
                  description := "the id".data }]
    business_rules := ["ruleXYZ".data] }

/-- The schema catalog returned by tools.py `create_schema_tool`
(lines 134-227), transcribed table by table in declaration order.  No column
record in the source carries a `primary_key` or `foreign_key` key, so those
fields are falsy for every column. -/
def actualSchemaTables : List SchemaTable :=
  [{ name := "bi_report.ordernumber_rs".data
     description := "Order-level data from Revolve/Forward transactions".data
     columns :=
       [{ name := "useremail".data, type := "VARCHAR(256)".data,
          primary_key := false, foreign_key := [],
          description := "Customer email address".data },
        { name := "transactionid".data, type := "VARCHAR(256)".data,
          primary_key := false, foreign_key := [],
          description := "Unique transaction identifier".data },
        { name := "site".data, type := "VARCHAR(5)".data,
          primary_key := false, foreign_key := [],
          description := "Site identifier (R=Revolve, F=Forward)".data },
        { name := "shipcountry".data, type := "VARCHAR(256)".data,
          primary_key := false, foreign_key := [],
          description := "Shipping country".data },
        { name := "oorderdate".data, type := "TIMESTAMP".data,
          primary_key := false, foreign_key := [],
          description := "Order date".data },
        { name := "ssales".data, type := "DOUBLE PRECISION".data,
          primary_key := false, foreign_key := [],
          description := "Sales amount".data },
        { name := "netsales".data, type := "DOUBLE PRECISION".data,
          primary_key := false, foreign_key := [],
          description := "Net sales amount".data },
        { name := "invoicenum".data, type := "VARCHAR(256)".data,
          primary_key := false, foreign_key := [],
          description := "Invoice number".data },
        { name := "paymenttype".data, type := "VARCHAR(255)".data,
          primary_key := false, foreign_key := [],
          description := "Payment method (ANET, etc.)".data }]
     business_rules :=
       ["Revolve orders: site <> 'F' (excludes Forward)".data,
        "Does NOT contain product-level information".data,
        "Contains payment information but not paymenttokenservice".data] },
   { name := "bi_report.shipmentnumber_rs".data
     description := "Shipment-level data with product information".data
     columns :=
       [{ name := "useremail".data, type := "VARCHAR(256)".data,
          primary_key := false, foreign_key := [],
          description := "Customer email address".data },
        { name := "transactionid".data, type := "VARCHAR(256)".data,
          primary_key := false, foreign_key := [],
          description := "Transaction identifier".data },
        { name := "shipmentid".data, type := "VARCHAR(256)".data,
          primary_key := false, foreign_key := [],
          description := "Unique shipment identifier".data },
        { name := "site".data, type := "VARCHAR(256)".data,
          primary_key := false, foreign_key := [],
          description := "Site identifier".data },
        { name := "oorderdate".data, type := "TIMESTAMP".data,
          primary_key := false, foreign_key := [],
          description := "Original order date".data },
        { name := "shipmentdate".data, type := "TIMESTAMP".data,
          primary_key := false, foreign_key := [],
          description := "Shipment date".data },
        { name := "amount".data, type := "DOUBLE PRECISION".data,
          primary_key := false, foreign_key := [],
          description := "Shipment amount".data },
        { name := "ssales".data, type := "REAL".data,
          primary_key := false, foreign_key := [],
          description := "Shipment sales".data },
        { name := "netsales".data, type := "REAL".data,
          primary_key := false, foreign_key := [],
          description := "Net sales from shipment".data },
        { name := "productcode".data, type := "VARCHAR(256)".data,
          primary_key := false, foreign_key := [],
          description := "Product code".data },
        { name := "projnetsales_shipped".data, type := "REAL".data,
          primary_key := false, foreign_key := [],
          description := "Projected net sales for shipped items".data },
        { name := "extrastatus".data, type := "VARCHAR(256)".data,
          primary_key := false, foreign_key := [],
          description := "Extra status including 'lost package'".data },
        { name := "shippingcountry".data, type := "VARCHAR(256)".data,
          primary_key := false, foreign_key := [],
          description := "Shipping country".data }]
     business_rules :=
       ["Contains product codes for joining with product tables".data,
        "Has projected sales calculations".data,
        "extrastatus contains 'lost package' not 'lost'".data,
        "Links to mars__revolveclothing_com___db.orders for additional data".data] },
   { name := "mars__revolveclothing_com___db.orders".data
     description := "Raw orders table with payment token information".data
     columns :=
       [{ name := "transactionid".data, type := "VARCHAR".data,
          primary_key := false, foreign_key := [],
          description := "Transaction identifier for joining".data },
        { name := "paymenttokenservice".data, type := "VARCHAR".data,
          primary_key := false, foreign_key := [],
          description := "Payment token service (ApplePay, etc.)".data },
        { name := "amount".data, type := "DECIMAL".data,
          primary_key := false, foreign_key := [],
          description := "Order amount".data }]
     business_rules := [] },
   { name := "mars__revolveclothing_com___db.product".data
     description := "Product information table".data
     columns :=
       [{ name := "code".data, type := "VARCHAR".data,
          primary_key := false, foreign_key := [],
          description := "Product code (matches shipmentnumber_rs.productcode)".data },
        { name := "brandname".data, type := "VARCHAR".data,
          primary_key := false, foreign_key := [],
          description := "Brand name".data }]
     business_rules := [] },
   { name := "mars__revolveclothing_com___db.shipment".data
     description := "Detailed shipment information".data
     columns :=
       [{ name := "shipmentid".data, type := "VARCHAR".data,
          primary_key := false, foreign_key := [],
          description := "Shipment identifier".data },
        { name := "extrastatus".data, type := "VARCHAR".data,
          primary_key := false, foreign_key := [],
          description := "Extra status with 'lost package'".data },
        { name := "shippingoption".data, type := "VARCHAR".data,
          primary_key := false, foreign_key := [],
          description := "Shipping carrier".data },
        { name := "sigrequired".data, type := "BOOLEAN".data,
          primary_key := false, foreign_key := [],
          description := "Signature required flag".data }]
     business_rules := [] },
   { name := "mars__id.id_categorynames2".data
     description := "Category mapping table".data
     columns :=
       [{ name := "lettercat".data, type := "VARCHAR(1)".data,
          primary_key := false, foreign_key := [],
          description := "Category letter code".data },
        { name := "catname2".data, type := "VARCHAR".data,
          primary_key := false, foreign_key := [],
          description := "Category name".data }]
     business_rules := [] },
   { name := "mars__id.shipping_pickuptime".data
     description := "Shipping carrier information".data
     columns :=
       [{ name := "shippingoption".data, type := "VARCHAR".data,
          primary_key := false, foreign_key := [],
          description := "More accurate shipping carrier info".data }]
     business_rules := [] }]

end NL2SQL

namespace NL2SQL

lemma pyStrip_of_all_space (s : List Char) (h : ∀ c ∈ s, pyIsSpace c = true) :
    pyStrip s = [] := by
  unfold pyStrip
  have h1 : s.dropWhile pyIsSpace = [] := List.dropWhile_eq_nil_iff.mpr h
  simp [h1]

lemma mem_of_isPrefixL : ∀ (p s : List Char), isPrefixL p s = true → ∀ c ∈ p, c ∈ s
  | [], _, _, c, hc => absurd hc (List.not_mem_nil c)
  | _ :: _, [], h, _, _ => by simp [isPrefixL] at h
  | a :: as, b :: bs, h, c, hc => by
    simp only [isPrefixL, Bool.and_eq_true, decide_eq_true_eq] at h
    rcases List.mem_cons.mp hc with rfl | hc'
    · cases h.1; exact List.mem_cons_self _ _
    · exact List.mem_cons_of_mem _ (mem_of_isPrefixL as bs h.2 c hc')

lemma mem_of_isSub : ∀ (p s : List Char), isSub p s = true → ∀ c ∈ p, c ∈ s
  | p, [], h, c, hc => mem_of_isPrefixL p [] (by simpa [isSub] using h) c hc
  | p, b :: bs, h, c, hc => by
    simp only [isSub, Bool.or_eq_true] at h
    rcases h with h | h
    · exact mem_of_isPrefixL p (b :: bs) h c hc
    · exact List.mem_cons_of_mem _ (mem_of_isSub p bs h c hc)

lemma asciiUpper_ne_lowercase (c x : Char)
    (hx : 97 ≤ x.toNat ∧ x.toNat ≤ 122) : asciiUpper c ≠ x := by
  unfold asciiUpper
  split
  case isTrue h =>
    intro heq
    have h65 : 65 ≤ c.toNat - 32 := by omega
    have h90 : c.toNat - 32 ≤ 90 := by omega
    set m := c.toNat - 32 with hm
    interval_cases m <;> (rw [← heq] at hx; revert hx; decide)
  case isFalse h =>
    intro heq
    rw [heq] at h
    exact h hx

lemma isSub_pyUpper_eq_false (pat : List Char) (x : Char) (hmem : x ∈ pat)
    (hx : 97 ≤ x.toNat ∧ x.toNat ≤ 122) (s : List Char) :
    isSub pat (pyUpper s) = false := by
  by_contra hne
  have ht : isSub pat (pyUpper s) = true := by
    revert hne; cases isSub pat (pyUpper s) <;> simp
  have hxin := mem_of_isSub pat (pyUpper s) ht x hmem
  rcases List.mem_map.mp hxin with ⟨c, _, hc⟩
  exact asciiUpper_ne_lowercase c x hx hc

lemma tableCheck_cons_skip (u t : List Char) (rest : List (List Char))
    (h1 : isSub ("FROM ".data ++ t) u = false)
    (h2 : isSub ("JOIN ".data ++ t) u = false) :
    tableCheck u (t :: rest) = tableCheck u rest := by
  unfold tableCheck
  rw [h1, h2]
  simp only [Bool.not_false, Bool.and_self, eq_self_iff_true, if_true, ite_self]
  cases rest <;> rfl

lemma tableCheck_pyUpper_false (s : List Char) :
    tableCheck (pyUpper s) requiredTables = false := by
  show tableCheck (pyUpper s) ("products".data :: "sales".data :: "customers".data :: []) = false
  rw [tableCheck_cons_skip _ _ _
        (isSub_pyUpper_eq_false _ 'p' (by decide) (by decide) s)
        (isSub_pyUpper_eq_false _ 'p' (by decide) (by decide) s),
      tableCheck_cons_skip _ _ _
        (isSub_pyUpper_eq_false _ 'a' (by decide) (by decide) s)
        (isSub_pyUpper_eq_false _ 'a' (by decide) (by decide) s),
      tableCheck_cons_skip _ _ _
        (isSub_pyUpper_eq_false _ 'c' (by decide) (by decide) s)
        (isSub_pyUpper_eq_false _ 'c' (by decide) (by decide) s)]
  rfl

lemma validate_always_mustRef (sql : List Char) (h1 : pyStrip sql ≠ [])
    (h2 : isPrefixL "SELECT".data (pyUpper (pyStrip sql)) = true) :
    validate_sql_syntax sql = (false, mustRefMsg) := by
  have he : (pyStrip sql).isEmpty = false := by
    cases hq : pyStrip sql with
    | nil => exact absurd hq h1
    | cons a l => rfl
  simp [ validate_sql_syntax, he, h2, tableCheck_pyUpper_false]


lemma bucketMatch_eq_false (ql sl : List Char) (h : bucketFires ql = false) :
    bucketMatch ql sl = false := by
  unfold bucketFires at h
  have h1 : isSub "apparel".data ql = false := by
    revert h; cases isSub "apparel".data ql <;> simp
  have h2 : isSub "clothes".data ql = false := by
    revert h; cases isSub "clothes".data ql <;> simp
  have h3 : isSub "fashion".data ql = false := by
    revert h; cases isSub "fashion".data ql <;> simp
  have h4 : isSub "electronics".data ql = false := by
    revert h; cases isSub "electronics".data ql <;> simp
  have h5 : isSub "electronic".data ql = false := by
    revert h; cases isSub "electronic".data ql <;> simp
  have h6 : isSub "brand".data ql = false := by
    revert h; cases isSub "brand".data ql <;> simp
  have h7 : isSub "brands".data ql = false := by
    revert h; cases isSub "brands".data ql <;> simp
  simp [bucketMatch, h1, h2, h3, h4, h5, h6, h7]

lemma relevantSamples_of_no_bucket (q : List Char) (lib : List SampleQuery)
    (h : bucketFires (pyLower q) = false) : relevantSamples q lib = lib.take 2 := by
  have hsel : selectedSamples q lib = [] := by
    unfold selectedSamples
    induction lib with
    | nil => rfl
    | cons s tl ih => simp [List.filter_cons, bucketMatch_eq_false _ _ h, ih]
  simp [relevantSamples, hsel]

lemma mem_two_ite (b1 b2 b3 b4 : Bool) (m v : List Char) :
    (v ∈ (if b1 && b2 then (if !b3 && !b4 then [m] else []) else ([] : List (List Char)))) ↔
      (v = m ∧ b1 = true ∧ b2 = true ∧ b3 = false ∧ b4 = false) := by
  cases b1 <;> cases b2 <;> cases b3 <;> cases b4 <;> simp

lemma mem_or_ite (b1 b2 b3 b4 : Bool) (m v : List Char) :
    (v ∈ (if b1 || b2 then (if b3 && !b4 then [m] else []) else ([] : List (List Char)))) ↔
      (v = m ∧ (b1 = true ∨ b2 = true) ∧ b3 = true ∧ b4 = false) := by
  cases b1 <;> cases b2 <;> cases b3 <;> cases b4 <;> simp


/-- C2: validate_sql_syntax on the three spec examples.  The first two agree
with the spec; on "SELECT * FROM public.products" the code returns the
must-reference-available-tables rejection instead of the spec's (true, ""),
because the loop compares the lowercase literals "FROM products"/"JOIN
products" against the upper-cased SQL (they can never occur there) and also
requires the table name unqualified directly after FROM/JOIN. -/
theorem validate_sql_syntax_spec_examples :
    validate_sql_syntax "".data = (false, "Empty SQL query".data) ∧
    validate_sql_syntax ("DELETE FROM x".data) =
      (false, "Query must start with SELECT".data) ∧
    validate_sql_syntax ("SELECT * FROM public.products".data) =
      (false, mustRefMsg) := by
  refine ⟨by decide, by decide, by decide⟩

/-- C10: a whitespace-only SQL string is stripped before any other check, so
it is rejected exactly like the empty string. -/
theorem validate_sql_syntax_whitespace_only (s : List Char)
    (h : ∀ c ∈ s, pyIsSpace c = true) :
    validate_sql_syntax s = (false, "Empty SQL query".data) := by
  have hs := pyStrip_of_all_space s h
  have he : (pyStrip s).isEmpty = true := by rw [hs]; rfl
  simp [ validate_sql_syntax, he]

/-- C10 witness: the claim instantiated at a concrete whitespace-only
string. -/
theorem validate_sql_syntax_whitespace_only_witness :
    validate_sql_syntax (" \t  ".data) = (false, "Empty SQL query".data) :=
  validate_sql_syntax_whitespace_only (" \t  ".data) (by decide)

/-- C7: for a non-empty SQL text starting with SELECT, acceptance implies the
spec's table-reference condition, and when the condition fails the result is
the must-reference rejection.  (In fact the code rejects every such text with
that message, which satisfies both directions.) -/
theorem validate_sql_syntax_table_reference (sql : List Char)
    (h1 : pyStrip sql ≠ [])
    (h2 : isPrefixL "SELECT".data (pyUpper (pyStrip sql)) = true) :
    (( validate_sql_syntax sql).1 = true → specTableRefCond sql) ∧
    (¬ specTableRefCond sql → validate_sql_syntax sql = (false, mustRefMsg)) := by
  have hv := validate_always_mustRef sql h1 h2
  constructor
  · intro hacc
    rw [hv] at hacc
    simp at hacc
  · intro _
    exact hv

/-- C7 witness: the theorem applied to the concrete query "SELECT 1". -/
theorem validate_sql_syntax_table_reference_witness :
    (( validate_sql_syntax ("SELECT 1".data)).1 = true →
      specTableRefCond ("SELECT 1".data)) ∧
    (¬ specTableRefCond ("SELECT 1".data) →
      validate_sql_syntax ("SELECT 1".data) = (false, mustRefMsg)) :=
  validate_sql_syntax_table_reference ("SELECT 1".data) (by decide) (by decide)

/-- C8: when no keyword bucket fires on the lowercased question, the sample
selection falls back to exactly the first two samples in library order. -/
theorem relevant_samples_no_bucket_fallback (q : List Char)
    (lib : List SampleQuery) (h : bucketFires (pyLower q) = false) :
    relevantSamples q lib = lib.take 2 ∧
    getRelevantSampleSql q lib =
      joinSep "\n\n".data ((lib.take 2).map formatSample) := by
  have hr := relevantSamples_of_no_bucket q lib h
  exact ⟨hr, by rw [getRelevantSampleSql, hr]⟩

/-- C8 witness: a concrete bucketless question over a concrete library. -/
theorem relevant_samples_no_bucket_fallback_witness :
    bucketFires (pyLower ("Show me total sales".data)) = false ∧
    relevantSamples ("Show me total sales".data) aovCexLib = aovCexLib.take 2 ∧
    getRelevantSampleSql ("Show me total sales".data) aovCexLib =
      joinSep "\n\n".data ((aovCexLib.take 2).map formatSample) :=
  ⟨by decide,
   relevant_samples_no_bucket_fallback ("Show me total sales".data) aovCexLib
     (by decide)⟩

/-- C9: the first-two fallback triggers whenever the collected list is empty,
also when a bucket fired but no sample question holds the bucket token. -/
theorem relevant_samples_empty_collection_fallback (q : List Char)
    (lib : List SampleQuery) (_h1 : bucketFires (pyLower q) = true)
    (h2 : selectedSamples q lib = []) :
    relevantSamples q lib = lib.take 2 ∧
    getRelevantSampleSql q lib =
      joinSep "\n\n".data ((lib.take 2).map formatSample) := by
  have hr : relevantSamples q lib = lib.take 2 := by
    simp [relevantSamples, h2]
  exact ⟨hr, by rw [getRelevantSampleSql, hr]⟩

/-- C9 witness: "top brand performance" fires the brand bucket, the
one-sample library holds no sample mentioning "brand", and the fallback
returns the first two (here: the single) samples. -/
theorem relevant_samples_empty_collection_fallback_witness :
    bucketFires (pyLower ("top brand performance".data)) = true ∧
    selectedSamples ("top brand performance".data) electronicsOnlyLib = [] ∧
    relevantSamples ("top brand performance".data) electronicsOnlyLib =
      electronicsOnlyLib.take 2 ∧
    getRelevantSampleSql ("top brand performance".data) electronicsOnlyLib =
      joinSep "\n\n".data ((electronicsOnlyLib.take 2).map formatSample) :=
  ⟨by decide, by decide,
   relevant_samples_empty_collection_fallback ("top brand performance".data)
     electronicsOnlyLib (by decide) (by decide)⟩

/-- C3 counterexample: for the AOV question, a library whose AOV-mentioning
sample is third returns only the first two samples, so that sample is not
among the returned ones, contradicting the claim. -/
theorem aov_sample_not_selected_counterexample :
    isSub "AOV".data aovCexSample3.question = true ∧
    relevantSamples aovQuestion aovCexLib = [aovCexSample1, aovCexSample2] ∧
    aovCexSample3 ∉ relevantSamples aovQuestion aovCexLib := by
  refine ⟨by decide, by decide, by decide⟩

/-- C3 (amended): the code has no aov/average-order bucket; for the question
"What is the AOV for UK customers?" none of the apparel, electronics or brand
buckets fires, so for every library exactly the first two samples are
selected and formatted, regardless of which sample mentions AOV. -/
theorem aov_question_falls_back_to_first_two (lib : List SampleQuery) :
    relevantSamples aovQuestion lib = lib.take 2 ∧
    getRelevantSampleSql aovQuestion lib =
      joinSep "\n\n".data ((lib.take 2).map formatSample) := by
  have hr := relevantSamples_of_no_bucket aovQuestion lib (by decide)
  exact ⟨hr, by rw [getRelevantSampleSql, hr]⟩

/-- C5: the compliance check emits the Revolve-filter violation exactly under
its trigger, the lost-package violation exactly under its trigger, and the
compliant flag is true iff the violation list is empty. -/
theorem check_business_rule_compliance_spec (q r : List Char) :
    (∀ v, v ∈ (check_business_rule_compliance q r).violations ↔
      (v = revolveViolationMsg ∧ isSub "revolve".data (pyLower q) = true ∧
        isSub "site".data (pyLower r) = true ∧
        isSub "site <> 'f'".data (pyLower r) = false ∧
        isSub "site != 'f'".data (pyLower r) = false) ∨
      (v = lostViolationMsg ∧
        (isSub "lost".data (pyLower q) = true ∨
          isSub "package".data (pyLower q) = true) ∧
        isSub "'lost'".data (pyLower r) = true ∧
        isSub "'lost package'".data (pyLower r) = false)) ∧
    ((check_business_rule_compliance q r).compliant = true ↔
      (check_business_rule_compliance q r).violations = []) := by
  constructor
  · intro v
    simp only [check_business_rule_compliance, List.mem_append, mem_two_ite,
      mem_or_ite]
  · simp only [check_business_rule_compliance]
    simp [List.length_eq_zero]

/-- C6: a question that is empty or whitespace-only is rejected with
success=false and the fixed error message, without invoking the external
agent runtime. -/
theorem process_question_blank_rejected (run : List Char → RunOutcome)
    (q : List Char) (h : ∀ c ∈ q, pyIsSpace c = true) :
    (process_question run q).success = false ∧
    (process_question run q).invokedRuntime = false ∧
    (process_question run q).error = some ("Question cannot be empty".data) := by
  have hs := pyStrip_of_all_space q h
  have he : (pyStrip q).isEmpty = true := by rw [hs]; rfl
  refine ⟨?_, ?_, ?_⟩ <;> simp [process_question, he]

/-- C6 witness: the theorem applied to the three-space question and a
concrete runtime oracle. -/
theorem process_question_blank_rejected_witness :
    (process_question (fun _ => RunOutcome.ok []) ("   ".data)).success = false ∧
    (process_question (fun _ => RunOutcome.ok []) ("   ".data)).invokedRuntime = false ∧
    (process_question (fun _ => RunOutcome.ok []) ("   ".data)).error =
      some ("Question cannot be empty".data) :=
  process_question_blank_rejected (fun _ => RunOutcome.ok []) ("   ".data)
    (by decide)


lemma create_agent_always_error (ag : Except PyErr Unit) :
    create_agent ag =
      Except.error (.runtimeError
        ("Could not create ADK agent: ".data ++ missingBusinessRulesMsg)) := rfl

/-- C1: construction of the facade can never succeed, even with a non-empty
project identifier, a non-empty connector name, and external toolset and
agent constructors that do not throw: agent.py line 108 calls
self.sql_helper._get_business_rules(), which RedshiftSQLHelper never defines,
so _create_agent always raises. -/
theorem agent_construct_always_fails :
    (∀ pid conn sa ts ag,
      agent_construct pid conn sa ts ag ≠ Except.ok FacadeState.ready) ∧
    agent_construct ("demo-project".data) ("redshift-demo-connection".data)
        (Except.ok ()) (Except.ok ()) (Except.ok ()) =
      Except.error (.runtimeError
        ("Could not create ADK agent: ".data ++ missingBusinessRulesMsg)) := by
  constructor
  · intro pid conn sa ts ag hok
    unfold agent_construct at hok
    by_cases hp : pid.isEmpty = true
    · simp [hp] at hok
    · simp only [hp, if_false] at hok
      cases hct : create_tools pid conn sa ts with
      | error e => rw [hct] at hok; simp at hok
      | ok u => rw [hct, create_agent_always_error ag] at hok; simp at hok
  · rfl


lemma joinSep_append {α : Type} (sep : List α) :
    ∀ (u v : List (List α)), u ≠ [] → v ≠ [] →
      joinSep sep (u ++ v) = joinSep sep u ++ sep ++ joinSep sep v
  | [], _, hu, _ => absurd rfl hu
  | [u0], v, _, hv => by
    cases v with
    | nil => exact absurd rfl hv
    | cons v0 vt => simp [joinSep]
  | u0 :: u1 :: ut, v, _, hv => by
    have ih := joinSep_append sep (u1 :: ut) v (by simp) hv
    rw [List.cons_append] at ih
    have e : (u0 :: u1 :: ut) ++ v = u0 :: u1 :: (ut ++ v) := by simp
    rw [e]
    show u0 ++ sep ++ joinSep sep (u1 :: (ut ++ v)) = _
    rw [ih, show joinSep sep (u0 :: u1 :: ut) =
      u0 ++ sep ++ joinSep sep (u1 :: ut) from rfl]
    simp [List.append_assoc]

lemma joinSep_ne_nil {α : Type} (sep : List α) :
    ∀ (xss : List (List α)), xss ≠ [] → (∀ xs ∈ xss, xs ≠ []) →
      joinSep sep xss ≠ []
  | [], h, _ => absurd rfl h
  | [x], _, hall => by simpa [joinSep] using hall x (by simp)
  | x :: y :: tl, _, hall => by
    have hx : x ≠ [] := hall x (by simp)
    simp only [joinSep]
    intro hcontra
    rcases List.append_eq_nil.mp hcontra with ⟨h1, _⟩
    rcases List.append_eq_nil.mp h1 with ⟨h2, _⟩
    exact hx h2

lemma mem_joinSep {α : Type} (sep : List α) :
    ∀ (xss : List (List α)) (l : α), l ∈ joinSep sep xss →
      l ∈ sep ∨ ∃ xs ∈ xss, l ∈ xs
  | [], l, h => by simp [joinSep] at h
  | [x], l, h => Or.inr ⟨x, by simp, by simpa [joinSep] using h⟩
  | x :: y :: tl, l, h => by
    simp only [joinSep, List.mem_append] at h
    rcases h with (h | h) | h
    · exact Or.inr ⟨x, by simp, h⟩
    · exact Or.inl h
    · rcases mem_joinSep sep (y :: tl) l h with h | ⟨xs, hxs, hl⟩
      · exact Or.inl h
      · exact Or.inr ⟨xs, List.mem_cons_of_mem x hxs, hl⟩

lemma splitNl_nl_cons (rest : List Char) :
    splitNl ('\n' :: rest) = [] :: splitNl rest := by
  simp [splitNl]

lemma splitNl_append (x : List Char) (hx : '\n' ∉ x) :
    ∀ (rest r : List Char) (rs : List (List Char)), splitNl rest = r :: rs →
      splitNl (x ++ rest) = (x ++ r) :: rs := by
  induction x with
  | nil => intro rest r rs h; simpa using h
  | cons c x' ih =>
    intro rest r rs h
    have hc : c ≠ '\n' := fun hcc => hx (hcc ▸ List.mem_cons_self c x')
    have hx' : '\n' ∉ x' := fun hmem => hx (List.mem_cons_of_mem c hmem)
    have ih' := ih hx' rest r rs h
    simp only [List.cons_append, splitNl, if_neg hc]
    rw [show x'.append rest = x' ++ rest from rfl, ih']

lemma splitNl_joinSep :
    ∀ (ls : List (List Char)), (∀ l ∈ ls, '\n' ∉ l) → ls ≠ [] →
      splitNl (joinSep ['\n'] ls) = ls
  | [], _, hne => absurd rfl hne
  | [x], h, _ => by
    have hx : '\n' ∉ x := h x (by simp)
    have := splitNl_append x hx [] [] [] rfl
    simpa [joinSep] using this
  | x :: y :: tl, h, _ => by
    have hx : '\n' ∉ x := h x (by simp)
    have hrec := splitNl_joinSep (y :: tl)
      (fun l hl => h l (List.mem_cons_of_mem x hl)) (by simp)
    have hsplit : splitNl ('\n' :: joinSep ['\n'] (y :: tl)) =
        [] :: y :: tl := by rw [splitNl_nl_cons, hrec]
    have := splitNl_append x hx ('\n' :: joinSep ['\n'] (y :: tl)) [] (y :: tl) hsplit
    simpa [joinSep, List.append_assoc] using this


lemma joinSep_blocks :
    ∀ (xss : List (List (List Char))), (∀ xs ∈ xss, xs ≠ []) →
      joinSep ('\n' :: '\n' :: []) (xss.map (joinSep ['\n'])) =
        joinSep ['\n'] (joinSep [([] : List Char)] xss)
  | [], _ => rfl
  | [x], _ => rfl
  | x :: y :: tl, hall => by
    have hx : x ≠ [] := hall x (by simp)
    have hrest : ∀ xs ∈ y :: tl, xs ≠ [] :=
      fun xs hxs => hall xs (List.mem_cons_of_mem x hxs)
    have ih := joinSep_blocks (y :: tl) hrest
    have hJne : joinSep [([] : List Char)] (y :: tl) ≠ [] :=
      joinSep_ne_nil _ _ (by simp) hrest
    show joinSep ['\n'] x ++ ('\n' :: '\n' :: []) ++
        joinSep ('\n' :: '\n' :: []) ((y :: tl).map (joinSep ['\n'])) =
      joinSep ['\n'] (x ++ [([] : List Char)] ++ joinSep [([] : List Char)] (y :: tl))
    rw [ih, List.append_assoc x [([] : List Char)] (joinSep [([] : List Char)] (y :: tl)),
        joinSep_append ['\n'] x ([([] : List Char)] ++ joinSep [([] : List Char)] (y :: tl))
          hx (by simp)]
    cases hJ : joinSep [([] : List Char)] (y :: tl) with
    | nil => exact absurd hJ hJne
    | cons j jt =>
      show joinSep ['\n'] x ++ ('\n' :: '\n' :: []) ++ joinSep ['\n'] (j :: jt) =
        joinSep ['\n'] x ++ ['\n'] ++ joinSep ['\n'] ([] :: j :: jt)
      show joinSep ['\n'] x ++ ('\n' :: '\n' :: []) ++ joinSep ['\n'] (j :: jt) =
        joinSep ['\n'] x ++ ['\n'] ++ ([] ++ ['\n'] ++ joinSep ['\n'] (j :: jt))
      simp [List.append_assoc]


lemma tableBlock_eq (t : SchemaTable) (h : t.columns ≠ []) :
    tableBlock t = joinSep ['\n'] (specTableLines t) := by
  obtain ⟨c0, cs, hc⟩ : ∃ c0 cs, t.columns = c0 :: cs := by
    cases hcc : t.columns with
    | nil => exact absurd hcc h
    | cons a l => exact ⟨a, l, rfl⟩
  rw [tableBlock, specTableLines, hc]
  simp only [List.map_cons]
  show _ = ("Table: ".data ++ t.name) ++ ['\n'] ++
    (("Description: ".data ++ t.description) ++ ['\n'] ++
      ("Columns:".data ++ ['\n'] ++
        joinSep ['\n'] (("  - ".data ++ colLine c0) :: cs.map (fun c => "  - ".data ++ colLine c))))
  simp [List.append_assoc]


lemma colLine_nlFree (c : SchemaColumn) (h1 : '\n' ∉ c.name) (h2 : '\n' ∉ c.type)
    (h3 : '\n' ∉ c.foreign_key) (h4 : '\n' ∉ c.description) :
    '\n' ∉ colLine c := by
  intro hmem
  have l1 : '\n' ∉ " (".data := by decide
  have l2 : '\n' ∉ ")".data := by decide
  have l3 : '\n' ∉ " [PRIMARY KEY]".data := by decide
  have l4 : '\n' ∉ " [FOREIGN KEY -> ".data := by decide
  have l5 : '\n' ∉ "]".data := by decide
  have l6 : '\n' ∉ " - ".data := by decide
  unfold colLine colKeyMarker colDescSuffix at hmem
  split_ifs at hmem <;> simp only [List.mem_append, List.not_mem_nil] at hmem <;> tauto

lemma specTableLines_nlFree (t : SchemaTable) (h : tableNlFree t) :
    ∀ l ∈ specTableLines t, '\n' ∉ l := by
  obtain ⟨hn, hd, hc⟩ := h
  intro l hl
  simp only [specTableLines, List.mem_cons] at hl
  rcases hl with rfl | rfl | rfl | hl
  · intro hmem
    rcases List.mem_append.mp hmem with hm | hm
    · exact absurd hm (by decide)
    · exact hn hm
  · intro hmem
    rcases List.mem_append.mp hmem with hm | hm
    · exact absurd hm (by decide)
    · exact hd hm
  · decide
  · rcases List.mem_map.mp hl with ⟨c, hcmem, rfl⟩
    intro hmem
    rcases List.mem_append.mp hmem with hm | hm
    · exact absurd hm (by decide)
    · obtain ⟨g1, g2, g3, g4⟩ := hc c hcmem
      exact colLine_nlFree c g1 g2 g3 g4 hm


/-- C4 (amended): for every non-empty catalog whose tables each declare at
least one column and whose text fields are newline-free, the formatted schema
description splits on newlines into exactly one block per table in catalog
order, blocks separated by one empty line, each block being the table's
header lines followed by exactly one line per declared column in declaration
order — and nothing else (in particular no business-rule annotations). -/
theorem format_schema_description_lines (ts : List SchemaTable)
    (h0 : ts ≠ []) (h1 : ∀ t ∈ ts, t.columns ≠ [])
    (h2 : ∀ t ∈ ts, tableNlFree t) :
    splitNl (formatSchemaDescription ts) =
      joinSep [([] : List Char)] (ts.map specTableLines) := by
  have hmap : ts.map tableBlock = (ts.map specTableLines).map (joinSep ['\n']) := by
    rw [List.map_map]
    exact List.map_congr_left (fun t ht => tableBlock_eq t (h1 t ht))
  have hne_lines : ∀ xs ∈ ts.map specTableLines, xs ≠ [] := by
    intro xs hxs
    rcases List.mem_map.mp hxs with ⟨t, _, rfl⟩
    simp [specTableLines]
  rw [formatSchemaDescription, show "\n\n".data = ('\n' :: '\n' :: []) from rfl,
      hmap, joinSep_blocks _ hne_lines]
  apply splitNl_joinSep
  · intro l hl
    rcases mem_joinSep _ _ l hl with hsep | ⟨xs, hxs, hlxs⟩
    · have : l = [] := by simpa using hsep
      subst this
      simp
    · rcases List.mem_map.mp hxs with ⟨t, ht, rfl⟩
      exact specTableLines_nlFree t (h2 t ht) l hlxs
  · exact joinSep_ne_nil _ _ (by simpa using h0) hne_lines

/-- C4 counterexample: a table carrying a business-rule annotation whose text
does not occur anywhere in the formatted output, refuting the part of the
claim that says blocks contain the business-rule annotations when present. -/
theorem business_rules_not_in_output_counterexample :
    rulesDemoTable.business_rules = ["ruleXYZ".data] ∧
    isSub "ruleXYZ".data (formatSchemaDescription [rulesDemoTable]) = false := by
  refine ⟨rfl, by decide⟩

/-- C4 witness: the amended claim instantiated at the repository's actual
schema catalog. -/
theorem format_schema_description_lines_witness :
    splitNl (formatSchemaDescription actualSchemaTables) =
      joinSep [([] : List Char)] (actualSchemaTables.map specTableLines) :=
  format_schema_description_lines actualSchemaTables (by decide) (by decide)
    (by decide)

end NL2SQL
